import Mathlib

/-!
Shallow embedding of the AI public-transportation system
(`datasim.py`, `run_app.py`, `ai_models.py`) and verification of
specification claims about it.

Modelling conventions:
* Python floats are modelled as `ℚ`.
* Python's global `random` generator is modelled as an explicit stream of
  rationals (`Rng`): each primitive draw consumes one stream value `t`,
  which plays the role of `random.random()`'s value in `[0, 1)`.
* Mutable module-level state (`BUS_OPERATIONAL_STATUS`) is passed
  explicitly; the module initialiser is reproduced as a function of the
  crowdedness draws it makes.
-/

/-! ## Definitions: the embedded program -/

/-- Explicit random source: a stream of rationals together with a cursor.
Stream values stand for successive outputs of `random.random()`. -/
structure Rng where
  stream : Nat → ℚ
  idx : Nat
deriving Inhabited

/-- Consumes one raw stream value. -/
def Rng.next (r : Rng) : ℚ × Rng :=
  (r.stream r.idx, { r with idx := r.idx + 1 })

/-- Models `random.uniform(a, b)`: one draw `t`, result `a + (b - a) * t`. -/
def Rng.uniform (r : Rng) (a b : ℚ) : ℚ × Rng :=
  let (t, r') := r.next
  (a + (b - a) * t, r')

/-- Models `random.randint(a, b)` (both ends inclusive): one draw `t`,
result `a + ⌊t * (b - a + 1)⌋`, clamped into range so the model is total. -/
def Rng.randint (r : Rng) (a b : ℤ) : ℤ × Rng :=
  let (t, r') := r.next
  (a + max 0 (min (b - a) ⌊t * ((b : ℚ) - (a : ℚ) + 1)⌋), r')

/-- Models `random.choice(l)` for the non-empty lists it is applied to in
the source; `d` is a default making the model total on `[]`. -/
def Rng.choice {α : Type} (r : Rng) (l : List α) (d : α) : α × Rng :=
  let (t, r') := r.next
  (l.getD (max 0 (min (l.length - 1) (⌊t * (l.length : ℚ)⌋.toNat))) d, r')

/-- One stop record of `ROUTE_METADATA`. -/
structure Stop where
  name : String
  lat : ℚ
  lon : ℚ
  index : Nat
deriving DecidableEq

/-- One route record of `ROUTE_METADATA`. -/
structure Route where
  name : String
  stops : List Stop
deriving DecidableEq

def townHallStop : Stop := ⟨"Town Hall", 26918/1000, 75790/1000, 0⟩

def mainMarketStop : Stop := ⟨"Main Market", 26925/1000, 75795/1000, 1⟩

def universityGateStop : Stop := ⟨"University Gate", 26932/1000, 75785/1000, 2⟩

def hospitalSquareStop : Stop := ⟨"Hospital Square", 26920/1000, 75778/1000, 3⟩

def route1 : Route :=
  ⟨"City Center to University Loop",
   [townHallStop, mainMarketStop, universityGateStop, hospitalSquareStop]⟩

def route2 : Route :=
  ⟨"Railway Station Shuttle",
   [⟨"Railway Station", 26910/1000, 75805/1000, 0⟩,
    ⟨"Industrial Area", 26900/1000, 75815/1000, 1⟩,
    ⟨"Airport Road", 26895/1000, 75800/1000, 2⟩]⟩

/-- The static catalog, as an association list in insertion order
(Python dict iteration order). -/
def ROUTE_METADATA : List (String × Route) :=
  [("Route-1", route1), ("Route-2", route2)]

/-- Models `ROUTE_METADATA.get(route_id)`. -/
def getRouteMeta (route_id : String) : Option Route :=
  ROUTE_METADATA.lookup route_id

/-- Embeds `datasim.get_stops_in_order`: resolve both names on the route,
take `min`/`max` of the two indices, and keep the stops with index in the
half-open interval `(start_point, end_point]`.  Unknown route or a name
missing from the route (the `StopIteration` branch) yields `[]`. -/
def get_stops_in_order (route_id start_name end_name : String) : List Stop :=
  match getRouteMeta route_id with
  | none => []
  | some route =>
    let stops := route.stops
    match stops.find? (fun s => s.name == start_name),
          stops.find? (fun s => s.name == end_name) with
    | some sa, some sb =>
      let start_point := min sa.index sb.index
      let end_point := max sa.index sb.index
      stops.filter (fun s => decide (start_point < s.index ∧ s.index ≤ end_point))
    | _, _ => []

/-- Following the spec's words, for comparison with the source (claim C3):
`stops_between` "fails with `UnknownStop` if either name is absent from the
route" and "returns the empty sequence if the route is unknown". -/
inductive StopsError where
  | UnknownStop
deriving DecidableEq

/-- Spec-described variant of `stops_between` (claim C3's error contract). -/
def stops_between_specModel (route_id start_name end_name : String) :
    Except StopsError (List Stop) :=
  match getRouteMeta route_id with
  | none => .ok []
  | some route =>
    match route.stops.find? (fun s => s.name == start_name),
          route.stops.find? (fun s => s.name == end_name) with
    | some sa, some sb =>
      let start_point := min sa.index sb.index
      let end_point := max sa.index sb.index
      .ok (route.stops.filter
        (fun s => decide (start_point < s.index ∧ s.index ≤ end_point)))
    | _, _ => .error .UnknownStop

/-- Per-bus operational state record. -/
structure OpState where
  is_running : Bool
  status_message : String
  crowdedness_level : String
  assigned_route_id : String
deriving DecidableEq

/-- The mutable module-level store, modelled as an association list in
insertion order. -/
def OpStore : Type := List (String × OpState)

/-- Bus identifier `"Bus-" + i`. -/
def busId (i : Nat) : String := "Bus-" ++ toString i

/-- The store's initial contents for buses 1..15; `crowd i` stands for the
`random.choice(["LIGHT", "MODERATE", "HEAVY"])` made for bus `i` at module
initialisation. -/
def BUS_OPERATIONAL_STATUS (crowd : Nat → String) : OpStore :=
  (List.range' 1 15).map (fun i =>
    (busId i,
     { is_running := i % 3 != 0,
       status_message := if i % 3 != 0 then "On Route" else "Off Duty",
       crowdedness_level := crowd i,
       assigned_route_id := "Route-" ++ toString (i % 2 + 1) }))

/-- Embeds `datasim.update_bus_operational_status`.  On a known bus it
applies the partial update, possibly re-drawing a route assignment when the
stored assignment was the "N/A" sentinel and the call sets running (a
truthy `is_running` argument), and returns `true`; on an unknown bus it
returns `false` without touching anything. -/
def update_bus_operational_status (store : OpStore) (bus_id : String)
    (is_running : Option Bool) (status_message : Option String)
    (crowdedness_level : Option String) (rng : Rng) :
    Bool × OpStore × Rng :=
  match List.lookup bus_id store with
  | some state =>
    let state := match is_running with
      | some b => { state with is_running := b }
      | none => state
    let state := match status_message with
      | some m => { state with status_message := m }
      | none => state
    let state := match crowdedness_level with
      | some c => { state with crowdedness_level := c }
      | none => state
    let (state, rng) :=
      if state.assigned_route_id = "N/A" ∧ is_running = some true then
        let (k, rng') := rng.choice [1, 2] 1
        ({ state with assigned_route_id := "Route-" ++ toString k }, rng')
      else (state, rng)
    (true, (store : List (String × OpState)).map
      (fun p => if p.1 = bus_id then (p.1, state) else p), rng)
  | none => (false, store, rng)

/-- One synthesized per-bus snapshot.  Fields absent from the off-duty
dictionary in the source (`next_stop_index`, `timestamp`) are `Option`s;
`datetime.now()` is modelled by the explicit `now` parameter below. -/
structure LiveStatus where
  bus_id : String
  route_id : String
  is_running : Bool
  status_message : String
  current_stop : String
  next_stop_name : String
  next_stop_index : Option Nat
  timestamp : Option String
  location_lat : ℚ
  location_lon : ℚ
  speed_kmh : ℤ
  passengers : ℤ
  crowdedness : String
  distance_to_stop_km : ℚ
deriving DecidableEq

/-- Loop body of `generate_live_bus_status` for bus number `i`: reads the
operational store, emits the fixed depot snapshot for a missing or
off-duty bus, and otherwise simulates a running bus, consuming random
draws in exactly the source's evaluation order (current stop, next stop,
distance, the three passenger-range draws of the dict literal, latitude
jitter, longitude jitter, speed). -/
def genOneBus (store : OpStore) (now : String) (i : Nat) (rng : Rng) :
    LiveStatus × Rng :=
  let bus_id := busId i
  match List.lookup bus_id store with
  | none =>
    ({ bus_id := bus_id, route_id := "Route-1", is_running := false,
       status_message := "Off Duty", crowdedness := "LIGHT",
       location_lat := 0, location_lon := 0,
       next_stop_name := "Depot", passengers := 0, speed_kmh := 0,
       distance_to_stop_km := 0, current_stop := "Depot",
       next_stop_index := none, timestamp := none }, rng)
  | some op_state =>
    let route_key := op_state.assigned_route_id
    let route_data := (getRouteMeta route_key).getD route1
    if !op_state.is_running then
      ({ bus_id := bus_id, route_id := route_key, is_running := false,
         status_message := op_state.status_message,
         crowdedness := op_state.crowdedness_level,
         location_lat := 0, location_lon := 0,
         next_stop_name := "Depot", passengers := 0, speed_kmh := 0,
         distance_to_stop_km := 0, current_stop := "Depot",
         next_stop_index := none, timestamp := none }, rng)
    else
      let c := rng.choice route_data.stops townHallStop
      let current_stop := c.1
      let next_stop_list :=
        route_data.stops.filter (fun s => s.name != current_stop.name)
      let nx := match next_stop_list with
        | [] => (current_stop, c.2)
        | l => c.2.choice l townHallStop
      let next_stop := nx.1
      let d := nx.2.uniform (8/10) (45/10)
      let pL := d.2.randint 5 20
      let pM := pL.2.randint 30 45
      let pH := pM.2.randint 50 60
      let crowdedness_level := op_state.crowdedness_level
      let passengers :=
        if crowdedness_level = "LIGHT" then pL.1
        else if crowdedness_level = "MODERATE" then pM.1
        else if crowdedness_level = "HEAVY" then pH.1
        else 20
      let latj := pH.2.uniform (-(5/10000)) (5/10000)
      let lonj := latj.2.uniform (-(5/10000)) (5/10000)
      let speed := lonj.2.randint 15 50
      ({ bus_id := bus_id, route_id := route_key, is_running := true,
         status_message := op_state.status_message,
         current_stop := current_stop.name,
         next_stop_name := next_stop.name,
         next_stop_index := some next_stop.index,
         timestamp := some now,
         location_lat := current_stop.lat + latj.1,
         location_lon := current_stop.lon + lonj.1,
         speed_kmh := speed.1, passengers := passengers,
         crowdedness := crowdedness_level,
         distance_to_stop_km := d.1 }, speed.2)

/-- The synthesizer's loop over bus numbers `i, i+1, ..., i+c-1`. -/
def genBuses (store : OpStore) (now : String) :
    Nat → Nat → Rng → List (String × LiveStatus) × Rng
  | _, 0, rng => ([], rng)
  | i, c + 1, rng =>
    let p := genOneBus store now i rng
    let rest := genBuses store now (i + 1) c p.2
    ((busId i, p.1) :: rest.1, rest.2)

/-- Embeds `datasim.generate_live_bus_status`: snapshots for buses
`Bus-1 .. Bus-num_buses`, keyed in insertion order. -/
def generate_live_bus_status (store : OpStore) (now : String)
    (num_buses : Nat) (rng : Rng) : List (String × LiveStatus) × Rng :=
  genBuses store now 1 num_buses rng

/-- Fitted ridge-regression coefficients over the five features
`[speed_kmh, distance_km, hour_of_day, day_of_week, traffic_factor]`.
The numeric fit itself is performed by an external library (sklearn) on
seeded synthetic data; the embedding abstracts the fitted coefficients and
keeps the surrounding control flow and output clamping exact. -/
structure RidgeModel where
  wSpeed : ℚ
  wDistance : ℚ
  wHour : ℚ
  wDay : ℚ
  wTraffic : ℚ
  intercept : ℚ
deriving DecidableEq

/-- Linear prediction of the fitted model. -/
def RidgeModel.predictRaw (m : RidgeModel) (speed distance hour day
    traffic : ℚ) : ℚ :=
  m.wSpeed * speed + m.wDistance * distance + m.wHour * hour +
    m.wDay * day + m.wTraffic * traffic + m.intercept

/-- Models Python's `round(x, 1)` (to one decimal place). -/
def roundTo1 (q : ℚ) : ℚ := (round (q * 10) : ℤ) / 10

/-- What the constructor finds at `model_path`: a readable persisted model,
no file, or an unreadable file (the load raises). -/
inductive ModelFile where
  | present (m : RidgeModel)
  | absent
  | unreadable

/-- The instance state of `TransportAIModel` relevant to loading and
prediction: `self.model` and `self.model_loaded`. -/
structure AIState where
  model : Option RidgeModel
  model_loaded : Bool
deriving DecidableEq

/-- Embeds `TransportAIModel.train_model`'s effect on the instance state:
it fits and assigns `self.model` (abstracted as the parameter `fit`) and
saves it, but does not touch `self.model_loaded`. -/
def train_model (fit : RidgeModel) (st : AIState) : AIState :=
  { st with model := some fit }

/-- Embeds `TransportAIModel.load_model`: a readable file is loaded and
`model_loaded` set; an absent file or a load error falls through to
`train_model`. -/
def load_model (file : ModelFile) (fit : RidgeModel) (st : AIState) :
    AIState :=
  match file with
  | .present m => { st with model := some m, model_loaded := true }
  | .absent => train_model fit st
  | .unreadable => train_model fit st

/-- Embeds `TransportAIModel.__init__`: fields start as
`model = None, model_loaded = False`, then `load_model` runs. -/
def initTransportAIModel (file : ModelFile) (fit : RidgeModel) : AIState :=
  load_model file fit { model := none, model_loaded := false }

/-- The exception raised by `TransportAIModel.predict_eta`. -/
inductive EtaError where
  | ModelNotLoaded
deriving DecidableEq

/-- Embeds `TransportAIModel.predict_eta`: raises unless `model_loaded`
holds and a model object exists; otherwise predicts, clamps to a minimum
of 1 and rounds to one decimal. -/
def TransportAIModel.predict_eta (st : AIState) (speed distance hour day
    traffic : ℚ) : Except EtaError ℚ :=
  match st.model, st.model_loaded with
  | some m, true =>
    .ok (roundTo1 (max 1 (m.predictRaw speed distance hour day traffic)))
  | _, _ => .error .ModelNotLoaded

/-- Modelled from the spec: the module-level `ai_models.predict_eta(model,
speed, distance)` and `ai_models.ETA_MODEL_FILE` referenced by
`run_app.py` are not present under `src/` (only their caller
`run_app.mock_predict_eta` is).  Per the spec, with a model it scales a
one-feature "minutes to cover 1 km" prediction by the distance, it "falls
back to `60 × distance / max(speed,1)` (floor 1 minute) when no model is
available, and floors its result at 0.5 minutes — this fallback must never
raise, even with zero or negative speed input". -/
def predict_eta (model : Option (ℚ → ℚ)) (speed distance : ℚ) : ℚ :=
  match model with
  | some minutesPerKm => max (minutesPerKm speed * distance) (1/2)
  | none => max (max (60 * distance / max speed 1) 1) (1/2)

/-- Embeds `run_app.mock_predict_eta`: delegates to the module-level
predictor with the process-wide `eta_model` (which is `None` when the
model file was missing at startup). -/
def mock_predict_eta (eta_model : Option (ℚ → ℚ)) (speed distance : ℚ) :
    ℚ :=
  predict_eta eta_model speed distance

/-- Embeds `run_app.calculate_journey_time`: boarding ETA through the
planner-facing predictor, then `len(stops_in_between) * random.uniform(4, 8)`
as A-to-B travel time; returns `(eta_to_start, total_journey_time)`. -/
def calculate_journey_time (eta_model : Option (ℚ → ℚ))
    (speed dist_to_start_km : ℚ) (start_name end_name route_id : String)
    (rng : Rng) : (ℚ × ℚ) × Rng :=
  let eta_to_start := mock_predict_eta eta_model speed dist_to_start_km
  let stops_in_between := get_stops_in_order route_id start_name end_name
  let u := rng.uniform 4 8
  let travel_time_ab := (stops_in_between.length : ℚ) * u.1
  ((eta_to_start, eta_to_start + travel_time_ab), u.2)

/-- The values held by `get_route_plan`'s loop for one emitted suggestion,
before the `"%.1f"` formatting of the response dictionary. -/
structure PlanEntry where
  route_id : String
  bus_id : String
  eta_to_start : ℚ
  total_journey_time : ℚ
  crowdedness : String
  current_stop : String
deriving DecidableEq

/-- Inner loop body of `get_route_plan`: one live-fleet item against the
route `rid`; matching running buses draw a boarding distance in
[0.5, 3.0] and call `calculate_journey_time`. -/
def planBusStep (eta_model : Option (ℚ → ℚ)) (start end_ rid : String)
    (acc : List PlanEntry × Rng) (bitem : String × LiveStatus) :
    List PlanEntry × Rng :=
  if bitem.2.route_id = rid ∧ bitem.2.is_running then
    let d := acc.2.uniform (1/2) 3
    let ct := calculate_journey_time eta_model ((bitem.2.speed_kmh : ℚ))
      d.1 start end_ rid d.2
    (acc.1 ++ [{ route_id := rid, bus_id := bitem.1,
                 eta_to_start := ct.1.1, total_journey_time := ct.1.2,
                 crowdedness := bitem.2.crowdedness,
                 current_stop := bitem.2.current_stop }], ct.2)
  else acc

/-- Outer loop body of `get_route_plan`: a route contributes only when its
stop-name list contains both endpoints. -/
def planRouteStep (eta_model : Option (ℚ → ℚ)) (start end_ : String)
    (live : List (String × LiveStatus)) (acc : List PlanEntry × Rng)
    (ritem : String × Route) : List PlanEntry × Rng :=
  let stop_names := ritem.2.stops.map (fun s => s.name)
  if start ∈ stop_names ∧ end_ ∈ stop_names then
    live.foldl (planBusStep eta_model start end_ ritem.1) acc
  else acc

/-- The suggestion-gathering phase of `run_app.get_route_plan`: one fresh
live snapshot for the whole request, then the nested route/bus loops. -/
def planEntries (eta_model : Option (ℚ → ℚ)) (store : OpStore)
    (now start end_ : String) (rng : Rng) : List PlanEntry × Rng :=
  let live := generate_live_bus_status store now 15 rng
  ROUTE_METADATA.foldl (planRouteStep eta_model start end_ live.1)
    ([], live.2)

/-- One response record of `/api/v1/plan`; the two minute fields go
through `"%.1f"` formatting, modelled as rounding to one decimal. -/
structure Suggestion where
  route_id : String
  bus_id : String
  eta_to_start_min : ℚ
  total_journey_min : ℚ
  crowdedness : String
  currentStop : String
  endStop : String
deriving DecidableEq

/-- Embeds `run_app.get_route_plan`'s suggestion list: gathered entries,
formatted, then sorted ascending by the total-journey field (the source's
`results.sort(key=lambda x: float(x['total_journey_min']))`). -/
def get_route_plan (eta_model : Option (ℚ → ℚ)) (store : OpStore)
    (now start end_ : String) (rng : Rng) : List Suggestion :=
  let entries := planEntries eta_model store now start end_ rng
  (entries.1.map (fun e =>
    { route_id := e.route_id, bus_id := e.bus_id,
      eta_to_start_min := roundTo1 e.eta_to_start,
      total_journey_min := roundTo1 e.total_journey_time,
      crowdedness := e.crowdedness, currentStop := e.current_stop,
      endStop := end_ })).mergeSort
    (fun a b => decide (a.total_journey_min ≤ b.total_journey_min))

/-- The per-suggestion transit-time shape: some single scalar in [4, 8]
multiplied by the number of intervening stops of the suggestion's route. -/
def PerLegShape (start end_ : String) (e : PlanEntry) : Prop :=
  ∃ plm : ℚ, 4 ≤ plm ∧ plm ≤ 8 ∧
    e.total_journey_time - e.eta_to_start =
      ((get_stops_in_order e.route_id start end_).length : ℚ) * plm

/-- A concrete operational store for exercising the planner: two running
buses assigned to Route-1. -/
def cStore : OpStore :=
  [("Bus-1", ⟨true, "On Route", "LIGHT", "Route-1"⟩),
   ("Bus-2", ⟨true, "On Route", "LIGHT", "Route-1"⟩)]

/-- A concrete random stream: every draw is 0 except the 22nd (index 21),
which is 1/2 — the draw consumed by the second suggestion's
per-leg-minutes `uniform(4, 8)` call. -/
def cStream : Nat → ℚ := fun n => if n = 21 then 1/2 else 0

/-- The snapshot synthesized for Bus-1 from `cStore` under `cStream`. -/
def cBus1 : LiveStatus :=
  { bus_id := "Bus-1", route_id := "Route-1", is_running := true,
    status_message := "On Route", current_stop := "Town Hall",
    next_stop_name := "Main Market", next_stop_index := some 1,
    timestamp := some "t0", location_lat := townHallStop.lat + -(5/10000),
    location_lon := townHallStop.lon + -(5/10000), speed_kmh := 15,
    passengers := 5, crowdedness := "LIGHT", distance_to_stop_km := 8/10 }

/-- The snapshot synthesized for Bus-2 (same draws, all zero). -/
def cBus2 : LiveStatus := { cBus1 with bus_id := "Bus-2" }

/-- The default depot snapshot for buses missing from `cStore`. -/
def cDepot (k : Nat) : LiveStatus :=
  { bus_id := busId k, route_id := "Route-1", is_running := false,
    status_message := "Off Duty", current_stop := "Depot",
    next_stop_name := "Depot", next_stop_index := none, timestamp := none,
    location_lat := 0, location_lon := 0, speed_kmh := 0, passengers := 0,
    crowdedness := "LIGHT", distance_to_stop_km := 0 }

/-- First emitted suggestion of the concrete request: per-leg draw 4,
transit 3 × 4 = 12, total 2 + 12 = 14. -/
def cE1 : PlanEntry :=
  ⟨"Route-1", "Bus-1", 2, 14, "LIGHT", "Town Hall"⟩

/-- Second emitted suggestion of the concrete request: per-leg draw 6,
transit 3 × 6 = 18, total 2 + 18 = 20. -/
def cE2 : PlanEntry :=
  ⟨"Route-1", "Bus-2", 2, 20, "LIGHT", "Town Hall"⟩

/-! ## Theorems: the claims and their supporting lemmas -/

/-- C5: `stops_between` is symmetric in its two stop-name arguments,
for every route id (catalog or not) and every pair of names. -/
theorem C5_stops_between_symm (route_id a b : String) :
    get_stops_in_order route_id a b = get_stops_in_order route_id b a := by
  unfold get_stops_in_order
  cases getRouteMeta route_id with
  | none => rfl
  | some route =>
    simp only
    cases ha : route.stops.find? (fun s => s.name == a) with
    | none =>
      cases hb : route.stops.find? (fun s => s.name == b) <;> simp
    | some sa =>
      cases hb : route.stops.find? (fun s => s.name == b) with
      | none => simp
      | some sb => simp [min_comm, max_comm, and_comm]

/-- Any route returned by the catalog is one of its two concrete routes. -/
lemma getRouteMeta_cases {route_id : String} {r : Route}
    (h : getRouteMeta route_id = some r) : r = route1 ∨ r = route2 := by
  unfold getRouteMeta ROUTE_METADATA at h
  simp only [List.lookup] at h
  split at h
  · exact Or.inl (Option.some_injective _ h).symm
  · split at h
    · exact Or.inr (Option.some_injective _ h).symm
    · exact absurd h (by simp)

/-- The stop lists of both catalog routes are strictly increasing in
`sequence_index`. -/
lemma route_stops_sorted {r : Route} (h : r = route1 ∨ r = route2) :
    r.stops.Pairwise (fun s t => s.index < t.index) := by
  rcases h with h | h <;> subst h <;> decide

/-- C6: for every catalog route and pair of stop names resolving on it,
`stops_between` returns exactly the stops whose `sequence_index` lies in
`(min(idx_a, idx_b), max(idx_a, idx_b)]`, ordered by `sequence_index`; and
on Route-1 from "Town Hall" to "Hospital Square" it returns exactly
[Main Market, University Gate, Hospital Square]. -/
theorem C6_stops_between_interval :
    (∀ (route_id : String) (route : Route) (a b : String) (sa sb : Stop),
      getRouteMeta route_id = some route →
      route.stops.find? (fun s => s.name == a) = some sa →
      route.stops.find? (fun s => s.name == b) = some sb →
      (∀ s : Stop, s ∈ get_stops_in_order route_id a b ↔
        (s ∈ route.stops ∧ min sa.index sb.index < s.index ∧
         s.index ≤ max sa.index sb.index)) ∧
      (get_stops_in_order route_id a b).Pairwise (fun s t => s.index < t.index)) ∧
    get_stops_in_order "Route-1" "Town Hall" "Hospital Square" =
      [mainMarketStop, universityGateStop, hospitalSquareStop] := by
  constructor
  · intro route_id route a b sa sb hroute hfa hfb
    have hres : get_stops_in_order route_id a b =
        route.stops.filter (fun s =>
          decide (min sa.index sb.index < s.index ∧
                  s.index ≤ max sa.index sb.index)) := by
      unfold get_stops_in_order
      rw [hroute]
      simp only [hfa, hfb]
    constructor
    · intro s
      rw [hres]
      simp [List.mem_filter]
    · rw [hres]
      exact (route_stops_sorted (getRouteMeta_cases hroute)).sublist
        (List.filter_sublist _)
  · rfl

/-- Witness for C6 at Route-1, "Town Hall" → "Hospital Square". -/
theorem C6_stops_between_interval_witness :
    (mainMarketStop ∈ get_stops_in_order "Route-1" "Town Hall" "Hospital Square" ↔
      (mainMarketStop ∈ route1.stops ∧
       min townHallStop.index hospitalSquareStop.index < mainMarketStop.index ∧
       mainMarketStop.index ≤ max townHallStop.index hospitalSquareStop.index)) ∧
    (get_stops_in_order "Route-1" "Town Hall" "Hospital Square").Pairwise
      (fun s t => s.index < t.index) := by
  have h := C6_stops_between_interval.1 "Route-1" route1 "Town Hall"
    "Hospital Square" townHallStop hospitalSquareStop rfl rfl rfl
  exact ⟨h.1 mainMarketStop, h.2⟩

/-- C3 counterexample: for the unknown stop name "Nowhere" on Route-1, the
source returns the plain empty sequence, whereas the claim requires an
`UnknownStop` failure (as in the spec-described variant). -/
theorem C3_counterexample :
    get_stops_in_order "Route-1" "Nowhere" "Hospital Square" = [] ∧
    stops_between_specModel "Route-1" "Nowhere" "Hospital Square" =
      .error .UnknownStop := by
  exact ⟨rfl, rfl⟩

/-- C3 amended: `stops_between` returns the empty sequence (raising no
error) whenever either stop name is absent from the named route, and
returns the empty sequence when the route id is not in the catalog. -/
theorem C3_amended_empty_on_unknown :
    (∀ (route_id : String) (route : Route) (a b : String),
      getRouteMeta route_id = some route →
      (route.stops.find? (fun s => s.name == a) = none ∨
       route.stops.find? (fun s => s.name == b) = none) →
      get_stops_in_order route_id a b = []) ∧
    (∀ route_id a b : String, getRouteMeta route_id = none →
      get_stops_in_order route_id a b = []) := by
  constructor
  · intro route_id route a b hroute habs
    unfold get_stops_in_order
    rw [hroute]
    rcases habs with h | h
    · simp only [h]
    · simp only [h]
      cases route.stops.find? (fun s => s.name == a) <;> rfl
  · intro route_id a b hroute
    unfold get_stops_in_order
    rw [hroute]

/-- Witness for C3's amended claim at Route-1 with absent name "Nowhere"
and at the unknown route id "Route-9". -/
theorem C3_amended_empty_on_unknown_witness :
    get_stops_in_order "Route-1" "Nowhere" "Town Hall" = [] ∧
    get_stops_in_order "Route-9" "Town Hall" "Main Market" = [] := by
  exact ⟨C3_amended_empty_on_unknown.1 "Route-1" route1 "Nowhere" "Town Hall"
      rfl (Or.inl rfl),
    C3_amended_empty_on_unknown.2 "Route-9" "Town Hall" "Main Market" rfl⟩

/-- C9: updating an unknown bus id returns `false` (raising nothing) and
leaves the whole store and the random source untouched. -/
theorem C9_update_unknown_bus (store : OpStore) (bus_id : String)
    (is_running : Option Bool) (status_message : Option String)
    (crowdedness_level : Option String) (rng : Rng)
    (h : List.lookup bus_id store = none) :
    update_bus_operational_status store bus_id is_running status_message
      crowdedness_level rng = (false, store, rng) := by
  unfold update_bus_operational_status
  rw [h]

/-- Witness for C9: the unknown id "Bus-99" against the initial store. -/
theorem C9_update_unknown_bus_witness :
    update_bus_operational_status (BUS_OPERATIONAL_STATUS (fun _ => "LIGHT"))
      "Bus-99" (some true) none none ⟨fun _ => 0, 0⟩ =
    (false, BUS_OPERATIONAL_STATUS (fun _ => "LIGHT"), ⟨fun _ => 0, 0⟩) :=
  C9_update_unknown_bus (BUS_OPERATIONAL_STATUS (fun _ => "LIGHT")) "Bus-99"
    (some true) none none ⟨fun _ => 0, 0⟩ rfl

lemma genBuses_length (store : OpStore) (now : String) :
    ∀ (c i : Nat) (rng : Rng), (genBuses store now i c rng).1.length = c := by
  intro c
  induction c with
  | zero => intro i rng; rfl
  | succ c ih => intro i rng; simp [genBuses, ih]

/-- When bus `i + j`'s snapshot does not depend on the random source, the
loop places it at position `j` regardless of the draws made for the buses
before it. -/
lemma genBuses_getElem_of_const (store : OpStore) (now : String)
    (s : LiveStatus) :
    ∀ (c j i : Nat) (rng : Rng), j < c →
    (∀ r : Rng, (genOneBus store now (i + j) r).1 = s) →
    (genBuses store now i c rng).1[j]? = some (busId (i + j), s) := by
  intro c
  induction c with
  | zero => intro j i rng hj; omega
  | succ c ih =>
    intro j i rng hj hconst
    cases j with
    | zero =>
      simp only [genBuses, List.getElem?_cons_zero, Nat.add_zero]
      rw [Nat.add_zero] at hconst
      rw [hconst rng]
    | succ j =>
      simp only [genBuses, List.getElem?_cons_succ]
      have harith : i + 1 + j = i + (j + 1) := by omega
      have := ih j (i + 1) (genOneBus store now i rng).2 (by omega)
        (by rw [harith]; exact hconst)
      rw [harith] at this
      exact this

/-- Off-duty bus: its snapshot is the depot record built from its stored
state, and no random draw is consumed. -/
lemma genOneBus_offduty (store : OpStore) (now : String) (k : Nat)
    (st : OpState) (hlk : List.lookup (busId k) store = some st)
    (hoff : st.is_running = false) (r : Rng) :
    genOneBus store now k r =
      ({ bus_id := busId k, route_id := st.assigned_route_id,
         is_running := false, status_message := st.status_message,
         current_stop := "Depot", next_stop_name := "Depot",
         next_stop_index := none, timestamp := none,
         location_lat := 0, location_lon := 0, speed_kmh := 0,
         passengers := 0, crowdedness := st.crowdedness_level,
         distance_to_stop_km := 0 }, r) := by
  unfold genOneBus
  simp only [hlk]
  simp [hoff]

/-- Missing bus: all the `.get` defaults of the source fire, yielding the
default depot record, and no random draw is consumed. -/
lemma genOneBus_missing (store : OpStore) (now : String) (k : Nat)
    (hlk : List.lookup (busId k) store = none) (r : Rng) :
    genOneBus store now k r =
      ({ bus_id := busId k, route_id := "Route-1", is_running := false,
         status_message := "Off Duty", current_stop := "Depot",
         next_stop_name := "Depot", next_stop_index := none,
         timestamp := none, location_lat := 0, location_lon := 0,
         speed_kmh := 0, passengers := 0, crowdedness := "LIGHT",
         distance_to_stop_km := 0 }, r) := by
  unfold genOneBus
  simp only [hlk]

/-- C7: for every bus stored as not running, the synthesized snapshot (at
its position `i - 1` of the fleet map) is exactly the depot record:
location (0, 0), current and next stop "Depot", speed 0, passengers 0,
distance-to-stop 0, with the stored status message and crowdedness carried
through unchanged. -/
theorem C7_offduty_depot_snapshot (store : OpStore) (now : String)
    (n : Nat) (rng : Rng) (i : Nat) (st : OpState)
    (hlk : List.lookup (busId i) store = some st)
    (hoff : st.is_running = false) (h1 : 1 ≤ i) (hn : i ≤ n) :
    (generate_live_bus_status store now n rng).1[i - 1]? =
      some (busId i,
        { bus_id := busId i, route_id := st.assigned_route_id,
          is_running := false, status_message := st.status_message,
          current_stop := "Depot", next_stop_name := "Depot",
          next_stop_index := none, timestamp := none,
          location_lat := 0, location_lon := 0, speed_kmh := 0,
          passengers := 0, crowdedness := st.crowdedness_level,
          distance_to_stop_km := 0 }) := by
  have harith : 1 + (i - 1) = i := by omega
  have := genBuses_getElem_of_const store now _ n (i - 1) 1 rng (by omega)
    (fun r => by rw [harith, genOneBus_offduty store now i st hlk hoff r])
  rw [harith] at this
  exact this

/-- Witness for C7: "Bus-3" (off duty in the initial store) in a fleet of
15 with a concrete random source. -/
theorem C7_offduty_depot_snapshot_witness :
    (generate_live_bus_status (BUS_OPERATIONAL_STATUS (fun _ => "HEAVY"))
        "2026-01-01T00:00:00" 15 ⟨fun _ => 0, 0⟩).1[2]? =
      some (busId 3,
        { bus_id := busId 3, route_id := "Route-2", is_running := false,
          status_message := "Off Duty", current_stop := "Depot",
          next_stop_name := "Depot", next_stop_index := none,
          timestamp := none, location_lat := 0, location_lon := 0,
          speed_kmh := 0, passengers := 0, crowdedness := "HEAVY",
          distance_to_stop_km := 0 }) :=
  C7_offduty_depot_snapshot (BUS_OPERATIONAL_STATUS (fun _ => "HEAVY"))
    "2026-01-01T00:00:00" 15 ⟨fun _ => 0, 0⟩ 3
    { is_running := false, status_message := "Off Duty",
      crowdedness_level := "HEAVY", assigned_route_id := "Route-2" }
    rfl rfl (by omega) (by omega)

/-- C10: a bus id with no stored operational state is synthesized as the
default depot snapshot — route "Route-1", message "Off Duty", crowdedness
"LIGHT", location (0, 0), speed 0, passengers 0 — and the call is total,
so a fleet size exceeding the store's 15 buses never fails. -/
theorem C10_synthesize_unknown_bus_default (store : OpStore) (now : String)
    (n : Nat) (rng : Rng) (i : Nat)
    (hlk : List.lookup (busId i) store = none)
    (h1 : 1 ≤ i) (hn : i ≤ n) :
    (generate_live_bus_status store now n rng).1[i - 1]? =
      some (busId i,
        { bus_id := busId i, route_id := "Route-1", is_running := false,
          status_message := "Off Duty", current_stop := "Depot",
          next_stop_name := "Depot", next_stop_index := none,
          timestamp := none, location_lat := 0, location_lon := 0,
          speed_kmh := 0, passengers := 0, crowdedness := "LIGHT",
          distance_to_stop_km := 0 }) := by
  have harith : 1 + (i - 1) = i := by omega
  have := genBuses_getElem_of_const store now _ n (i - 1) 1 rng (by omega)
    (fun r => by rw [harith, genOneBus_missing store now i hlk r])
  rw [harith] at this
  exact this

/-- Witness for C10: fleet size 20 against the 15-bus initial store; the
unstored "Bus-16" gets the default depot snapshot. -/
theorem C10_synthesize_unknown_bus_default_witness :
    (generate_live_bus_status (BUS_OPERATIONAL_STATUS (fun _ => "LIGHT"))
        "2026-01-01T00:00:00" 20 ⟨fun _ => 0, 0⟩).1[15]? =
      some (busId 16,
        { bus_id := busId 16, route_id := "Route-1", is_running := false,
          status_message := "Off Duty", current_stop := "Depot",
          next_stop_name := "Depot", next_stop_index := none,
          timestamp := none, location_lat := 0, location_lon := 0,
          speed_kmh := 0, passengers := 0, crowdedness := "LIGHT",
          distance_to_stop_km := 0 }) :=
  C10_synthesize_unknown_bus_default
    (BUS_OPERATIONAL_STATUS (fun _ => "LIGHT")) "2026-01-01T00:00:00" 20
    ⟨fun _ => 0, 0⟩ 16 rfl (by omega) (by omega)

/-- C1 evidence: constructing the predictor with the model file absent (or
unreadable) does fit a fresh model — `self.model` is assigned — yet every
subsequent `predict_eta` call still raises `ModelNotLoaded`, because the
training path never sets `self.model_loaded`.  This contradicts the
claim's "a subsequent predict_eta call succeeds" and its "fails ... only
when no model is available and training has not yet completed". -/
theorem C1_predict_fails_after_fresh_training (fit : RidgeModel)
    (speed distance hour day traffic : ℚ) :
    (initTransportAIModel .absent fit).model = some fit ∧
    TransportAIModel.predict_eta (initTransportAIModel .absent fit)
      speed distance hour day traffic = .error .ModelNotLoaded ∧
    (initTransportAIModel .unreadable fit).model = some fit ∧
    TransportAIModel.predict_eta (initTransportAIModel .unreadable fit)
      speed distance hour day traffic = .error .ModelNotLoaded := by
  exact ⟨rfl, rfl, rfl, rfl⟩

/-- C2: with no model the planner-facing ETA is the documented fallback —
`60 × distance / max(speed, 1)` floored at 1 minute, overall result
floored at 0.5 minutes; it is total (never raises), reduces to a
division-free form for non-positive speed, and at speed 30 and distance 15
yields exactly 30. -/
theorem C2_fallback_eta :
    mock_predict_eta none 30 15 = 30 ∧
    (∀ speed distance : ℚ,
      (1 : ℚ)/2 ≤ mock_predict_eta none speed distance) ∧
    (∀ speed distance : ℚ, speed ≤ 0 →
      mock_predict_eta none speed distance =
        max (max (60 * distance) 1) (1/2)) ∧
    (∀ speed distance : ℚ, 1 ≤ speed →
      mock_predict_eta none speed distance =
        max (max (60 * distance / speed) 1) (1/2)) := by
  refine ⟨?_, ?_, ?_, ?_⟩
  · show max (max (60 * 15 / max 30 1) 1) (1/2) = 30
    norm_num
  · intro speed distance
    exact le_max_right _ _
  · intro speed distance hs
    show max (max (60 * distance / max speed 1) 1) (1/2) = _
    rw [max_eq_right (by linarith : speed ≤ 1)]
    norm_num
  · intro speed distance hs
    show max (max (60 * distance / max speed 1) 1) (1/2) = _
    rw [max_eq_left hs]

/-- Witness for C2 at the negative speed -5 and distance 2. -/
theorem C2_fallback_eta_witness :
    mock_predict_eta none (-5) 2 = max (max (60 * 2) 1) (1/2) :=
  C2_fallback_eta.2.2.1 (-5) 2 (by norm_num)

/-- Merge-sorting suggestion lists by the total-journey field sorts them. -/
lemma sorted_by_total (l : List Suggestion) :
    (l.mergeSort (fun a b =>
        decide (a.total_journey_min ≤ b.total_journey_min))).Sorted
      (fun a b => a.total_journey_min ≤ b.total_journey_min) := by
  have h : (l.mergeSort (fun a b =>
      decide (a.total_journey_min ≤ b.total_journey_min))).Pairwise
        (fun a b =>
          decide (a.total_journey_min ≤ b.total_journey_min) = true) :=
    List.sorted_mergeSort
      (fun a b c h1 h2 => by
        simp only [decide_eq_true_eq] at h1 h2 ⊢
        exact le_trans h1 h2)
      (fun a b => by
        simp only [Bool.or_eq_true, decide_eq_true_eq]
        exact le_total _ _)
      l
  exact h.imp (fun hab => by simpa using hab)

/-- Drawing never changes the underlying stream, only the cursor. -/
lemma Rng.uniform_stream (r : Rng) (a b : ℚ) :
    (r.uniform a b).2.stream = r.stream := rfl

lemma genOneBus_stream (store : OpStore) (now : String) (i : Nat) (r : Rng) :
    (genOneBus store now i r).2.stream = r.stream := by
  unfold genOneBus
  cases hlk : List.lookup (busId i) store with
  | none => simp only [hlk]
  | some st =>
    simp only [hlk]
    by_cases hrun : st.is_running
    · simp only [hrun, Bool.not_true, Bool.false_eq_true, if_false]
      cases hnl : List.filter
          (fun s => s.name !=
            (Rng.choice r ((getRouteMeta st.assigned_route_id).getD
              route1).stops townHallStop).1.name)
          ((getRouteMeta st.assigned_route_id).getD route1).stops with
      | nil => simp only [hnl]; rfl
      | cons a l => simp only [hnl]; rfl
    · simp only [hrun, Bool.not_false, if_true]

lemma genBuses_stream (store : OpStore) (now : String) :
    ∀ (c i : Nat) (rng : Rng),
    (genBuses store now i c rng).2.stream = rng.stream := by
  intro c
  induction c with
  | zero => intro i rng; rfl
  | succ c ih =>
    intro i rng
    simp only [genBuses]
    rw [ih, genOneBus_stream]

lemma planBusStep_inv (eta_model : Option (ℚ → ℚ))
    (start end_ rid : String) (S : Nat → ℚ)
    (hS : ∀ n, 0 ≤ S n ∧ S n ≤ 1) (acc : List PlanEntry × Rng)
    (bitem : String × LiveStatus)
    (hacc : ∀ e ∈ acc.1, PerLegShape start end_ e)
    (hstream : acc.2.stream = S) :
    (∀ e ∈ (planBusStep eta_model start end_ rid acc bitem).1,
      PerLegShape start end_ e) ∧
    (planBusStep eta_model start end_ rid acc bitem).2.stream = S := by
  unfold planBusStep
  by_cases hc : bitem.2.route_id = rid ∧ bitem.2.is_running = true
  · rw [if_pos hc]
    constructor
    · intro e he
      simp only [calculate_journey_time, Rng.uniform, Rng.next,
        List.mem_append, List.mem_singleton] at he
      rcases he with he | he
      · exact hacc e he
      · subst he
        refine ⟨4 + (8 - 4) * acc.2.stream (acc.2.idx + 1), ?_, ?_, ?_⟩
        · have := (hS (acc.2.idx + 1)).1
          rw [hstream]
          linarith
        · have := (hS (acc.2.idx + 1)).2
          rw [hstream]
          linarith
        · simp only
          ring
    · simp only [calculate_journey_time, Rng.uniform, Rng.next]
      exact hstream
  · rw [if_neg hc]
    exact ⟨hacc, hstream⟩

lemma planBusFold_inv (eta_model : Option (ℚ → ℚ))
    (start end_ rid : String) (S : Nat → ℚ)
    (hS : ∀ n, 0 ≤ S n ∧ S n ≤ 1) :
    ∀ (l : List (String × LiveStatus)) (acc : List PlanEntry × Rng),
    (∀ e ∈ acc.1, PerLegShape start end_ e) → acc.2.stream = S →
    (∀ e ∈ (l.foldl (planBusStep eta_model start end_ rid) acc).1,
      PerLegShape start end_ e) ∧
    (l.foldl (planBusStep eta_model start end_ rid) acc).2.stream = S := by
  intro l
  induction l with
  | nil => intro acc hacc hstream; exact ⟨hacc, hstream⟩
  | cons b t ih =>
    intro acc hacc hstream
    simp only [List.foldl_cons]
    have step := planBusStep_inv eta_model start end_ rid S hS acc b hacc
      hstream
    exact ih _ step.1 step.2

lemma planRouteFold_inv (eta_model : Option (ℚ → ℚ))
    (start end_ : String) (live : List (String × LiveStatus))
    (S : Nat → ℚ) (hS : ∀ n, 0 ≤ S n ∧ S n ≤ 1) :
    ∀ (routes : List (String × Route)) (acc : List PlanEntry × Rng),
    (∀ e ∈ acc.1, PerLegShape start end_ e) → acc.2.stream = S →
    (∀ e ∈ (routes.foldl (planRouteStep eta_model start end_ live) acc).1,
      PerLegShape start end_ e) ∧
    (routes.foldl (planRouteStep eta_model start end_ live) acc).2.stream =
      S := by
  intro routes
  induction routes with
  | nil => intro acc hacc hstream; exact ⟨hacc, hstream⟩
  | cons rt rest ih =>
    intro acc hacc hstream
    simp only [List.foldl_cons]
    have step : (∀ e ∈ (planRouteStep eta_model start end_ live acc rt).1,
        PerLegShape start end_ e) ∧
        (planRouteStep eta_model start end_ live acc rt).2.stream = S := by
      unfold planRouteStep
      by_cases hc : start ∈ List.map (fun s => s.name) rt.2.stops ∧
          end_ ∈ List.map (fun s => s.name) rt.2.stops
      · simp only [if_pos hc]
        exact planBusFold_inv eta_model start end_ rt.1 S hS live acc hacc
          hstream
      · simp only [if_neg hc]
        exact ⟨hacc, hstream⟩
    exact ih _ step.1 step.2

/-- C4 amended: in every planning request, each emitted suggestion's
transit time is `count(intervening_stops) × per_leg_minutes` for a single
scalar `per_leg_minutes` in [4, 8] drawn in that suggestion's own
`calculate_journey_time` call — one draw per (route, bus) suggestion,
redrawn for each suggestion, not one shared draw per request. -/
theorem C4_amended_per_leg_per_suggestion (eta_model : Option (ℚ → ℚ))
    (store : OpStore) (now start end_ : String) (rng : Rng)
    (hS : ∀ n, 0 ≤ rng.stream n ∧ rng.stream n ≤ 1) :
    ∀ e ∈ (planEntries eta_model store now start end_ rng).1,
      ∃ plm : ℚ, 4 ≤ plm ∧ plm ≤ 8 ∧
        e.total_journey_time - e.eta_to_start =
          ((get_stops_in_order e.route_id start end_).length : ℚ) * plm := by
  intro e he
  have base : ((([] : List PlanEntry),
      (generate_live_bus_status store now 15 rng).2) :
      List PlanEntry × Rng).2.stream = rng.stream :=
    genBuses_stream store now 15 1 rng
  have h := (planRouteFold_inv eta_model start end_
    (generate_live_bus_status store now 15 rng).1 rng.stream hS
    ROUTE_METADATA ([], (generate_live_bus_status store now 15 rng).2)
    (by intro e h; cases h) base).1
  exact h e he

/-- C8: for every start/end pair, operational store and random source, the
suggestion list of `plan` is sorted non-decreasing in
`total_journey_minutes`. -/
theorem C8_plan_sorted (eta_model : Option (ℚ → ℚ)) (store : OpStore)
    (now start end_ : String) (rng : Rng) :
    (get_route_plan eta_model store now start end_ rng).Sorted
      (fun a b => a.total_journey_min ≤ b.total_journey_min) := by
  unfold get_route_plan
  exact sorted_by_total _

set_option maxHeartbeats 2000000 in
/-- Concrete evaluation of `genOneBus` for Bus-1. -/
lemma cBus1_eval : genOneBus cStore "t0" 1 ⟨cStream, 0⟩ = (cBus1, ⟨cStream, 9⟩) := by
  have hlk : List.lookup (busId 1) cStore =
      some ⟨true, "On Route", "LIGHT", "Route-1"⟩ := rfl
  have hgr : getRouteMeta "Route-1" = some route1 := rfl
  have h1 : (Rng.choice ⟨cStream, 0⟩ route1.stops townHallStop) =
      (townHallStop, ⟨cStream, 1⟩) := by
    norm_num [Rng.choice, Rng.next, cStream, route1]
  have h2 : route1.stops.filter (fun s => s.name != townHallStop.name) =
      [mainMarketStop, universityGateStop, hospitalSquareStop] := rfl
  have h3 : (Rng.choice ⟨cStream, 1⟩
      [mainMarketStop, universityGateStop, hospitalSquareStop] townHallStop) =
      (mainMarketStop, ⟨cStream, 2⟩) := by
    norm_num [Rng.choice, Rng.next, cStream]
  have h4 : (Rng.uniform ⟨cStream, 2⟩ (8/10) (45/10)) = (8/10, ⟨cStream, 3⟩) := by
    norm_num [Rng.uniform, Rng.next, cStream]
  have h5 : (Rng.randint ⟨cStream, 3⟩ 5 20) = (5, ⟨cStream, 4⟩) := by
    norm_num [Rng.randint, Rng.next, cStream]
  have h6 : (Rng.randint ⟨cStream, 4⟩ 30 45) = (30, ⟨cStream, 5⟩) := by
    norm_num [Rng.randint, Rng.next, cStream]
  have h7 : (Rng.randint ⟨cStream, 5⟩ 50 60) = (50, ⟨cStream, 6⟩) := by
    norm_num [Rng.randint, Rng.next, cStream]
  have h8 : (Rng.uniform ⟨cStream, 6⟩ (-(5/10000)) (5/10000)) =
      (-(5/10000), ⟨cStream, 7⟩) := by
    norm_num [Rng.uniform, Rng.next, cStream]
  have h9 : (Rng.uniform ⟨cStream, 7⟩ (-(5/10000)) (5/10000)) =
      (-(5/10000), ⟨cStream, 8⟩) := by
    norm_num [Rng.uniform, Rng.next, cStream]
  have h10 : (Rng.randint ⟨cStream, 8⟩ 15 50) = (15, ⟨cStream, 9⟩) := by
    norm_num [Rng.randint, Rng.next, cStream]
  have hb : busId 1 = "Bus-1" := rfl
  unfold genOneBus
  simp only [hlk, hgr, Option.getD, h1, h2, h3, h4, h5, h6, h7, h8, h9, h10]
  norm_num [townHallStop, mainMarketStop, cBus1, hb]

set_option maxHeartbeats 2000000 in
/-- Concrete evaluation of `genOneBus` for Bus-2. -/
lemma cBus2_eval : genOneBus cStore "t0" 2 ⟨cStream, 9⟩ = (cBus2, ⟨cStream, 18⟩) := by
  have hlk : List.lookup (busId 2) cStore =
      some ⟨true, "On Route", "LIGHT", "Route-1"⟩ := rfl
  have hgr : getRouteMeta "Route-1" = some route1 := rfl
  have h1 : (Rng.choice ⟨cStream, 9⟩ route1.stops townHallStop) =
      (townHallStop, ⟨cStream, 10⟩) := by
    norm_num [Rng.choice, Rng.next, cStream, route1]
  have h2 : route1.stops.filter (fun s => s.name != townHallStop.name) =
      [mainMarketStop, universityGateStop, hospitalSquareStop] := rfl
  have h3 : (Rng.choice ⟨cStream, 10⟩
      [mainMarketStop, universityGateStop, hospitalSquareStop] townHallStop) =
      (mainMarketStop, ⟨cStream, 11⟩) := by
    norm_num [Rng.choice, Rng.next, cStream]
  have h4 : (Rng.uniform ⟨cStream, 11⟩ (8/10) (45/10)) = (8/10, ⟨cStream, 12⟩) := by
    norm_num [Rng.uniform, Rng.next, cStream]
  have h5 : (Rng.randint ⟨cStream, 12⟩ 5 20) = (5, ⟨cStream, 13⟩) := by
    norm_num [Rng.randint, Rng.next, cStream]
  have h6 : (Rng.randint ⟨cStream, 13⟩ 30 45) = (30, ⟨cStream, 14⟩) := by
    norm_num [Rng.randint, Rng.next, cStream]
  have h7 : (Rng.randint ⟨cStream, 14⟩ 50 60) = (50, ⟨cStream, 15⟩) := by
    norm_num [Rng.randint, Rng.next, cStream]
  have h8 : (Rng.uniform ⟨cStream, 15⟩ (-(5/10000)) (5/10000)) =
      (-(5/10000), ⟨cStream, 16⟩) := by
    norm_num [Rng.uniform, Rng.next, cStream]
  have h9 : (Rng.uniform ⟨cStream, 16⟩ (-(5/10000)) (5/10000)) =
      (-(5/10000), ⟨cStream, 17⟩) := by
    norm_num [Rng.uniform, Rng.next, cStream]
  have h10 : (Rng.randint ⟨cStream, 17⟩ 15 50) = (15, ⟨cStream, 18⟩) := by
    norm_num [Rng.randint, Rng.next, cStream]
  have hb : busId 2 = "Bus-2" := rfl
  unfold genOneBus
  simp only [hlk, hgr, Option.getD, h1, h2, h3, h4, h5, h6, h7, h8, h9, h10]
  norm_num [townHallStop, mainMarketStop, cBus2, cBus1, hb]

set_option maxHeartbeats 2000000 in
/-- Concrete evaluation of the full fleet snapshot. -/
lemma cLive_eval : generate_live_bus_status cStore "t0" 15 ⟨cStream, 0⟩ =
    ([(busId 1, cBus1), (busId 2, cBus2), (busId 3, cDepot 3),
      (busId 4, cDepot 4), (busId 5, cDepot 5), (busId 6, cDepot 6),
      (busId 7, cDepot 7), (busId 8, cDepot 8), (busId 9, cDepot 9),
      (busId 10, cDepot 10), (busId 11, cDepot 11), (busId 12, cDepot 12),
      (busId 13, cDepot 13), (busId 14, cDepot 14), (busId 15, cDepot 15)],
     ⟨cStream, 18⟩) := by
  have hm3 := genOneBus_missing cStore "t0" 3 rfl ⟨cStream, 18⟩
  have hm4 := genOneBus_missing cStore "t0" 4 rfl ⟨cStream, 18⟩
  have hm5 := genOneBus_missing cStore "t0" 5 rfl ⟨cStream, 18⟩
  have hm6 := genOneBus_missing cStore "t0" 6 rfl ⟨cStream, 18⟩
  have hm7 := genOneBus_missing cStore "t0" 7 rfl ⟨cStream, 18⟩
  have hm8 := genOneBus_missing cStore "t0" 8 rfl ⟨cStream, 18⟩
  have hm9 := genOneBus_missing cStore "t0" 9 rfl ⟨cStream, 18⟩
  have hm10 := genOneBus_missing cStore "t0" 10 rfl ⟨cStream, 18⟩
  have hm11 := genOneBus_missing cStore "t0" 11 rfl ⟨cStream, 18⟩
  have hm12 := genOneBus_missing cStore "t0" 12 rfl ⟨cStream, 18⟩
  have hm13 := genOneBus_missing cStore "t0" 13 rfl ⟨cStream, 18⟩
  have hm14 := genOneBus_missing cStore "t0" 14 rfl ⟨cStream, 18⟩
  have hm15 := genOneBus_missing cStore "t0" 15 rfl ⟨cStream, 18⟩
  unfold generate_live_bus_status
  simp only [genBuses, Nat.reduceAdd, cBus1_eval, cBus2_eval, hm3, hm4, hm5,
    hm6, hm7, hm8, hm9, hm10, hm11, hm12, hm13, hm14, hm15, cDepot]

set_option maxHeartbeats 4000000 in
/-- Concrete evaluation of the planning request "Town Hall" →
"Hospital Square" over `cStore` and `cStream`. -/
lemma planEntries_eval :
    planEntries none cStore "t0" "Town Hall" "Hospital Square"
      ⟨cStream, 0⟩ = ([cE1, cE2], ⟨cStream, 22⟩) := by
  have hstops : get_stops_in_order "Route-1" "Town Hall" "Hospital Square" =
      [mainMarketStop, universityGateStop, hospitalSquareStop] := rfl
  have hd1 : (Rng.uniform ⟨cStream, 18⟩ 2⁻¹ 3) = (2⁻¹, ⟨cStream, 19⟩) := by
    norm_num [Rng.uniform, Rng.next, cStream]
  have hu1 : (Rng.uniform ⟨cStream, 19⟩ 4 8) = (4, ⟨cStream, 20⟩) := by
    norm_num [Rng.uniform, Rng.next, cStream]
  have hd2 : (Rng.uniform ⟨cStream, 20⟩ 2⁻¹ 3) = (2⁻¹, ⟨cStream, 21⟩) := by
    norm_num [Rng.uniform, Rng.next, cStream]
  have hu2 : (Rng.uniform ⟨cStream, 21⟩ 4 8) = (6, ⟨cStream, 22⟩) := by
    norm_num [Rng.uniform, Rng.next, cStream]
  have hb1 : busId 1 = "Bus-1" := rfl
  have hb2 : busId 2 = "Bus-2" := rfl
  unfold planEntries
  simp only [cLive_eval, ROUTE_METADATA, List.foldl_cons, List.foldl_nil]
  simp [planRouteStep, planBusStep, calculate_journey_time,
    mock_predict_eta, predict_eta, hstops, hd1, hu1, hd2, hu2, cBus1, cBus2,
    cDepot, hb1, hb2, route1, route2, townHallStop, mainMarketStop,
    universityGateStop, hospitalSquareStop, List.foldl_cons, List.foldl_nil]
  norm_num [cE1, cE2, Prod.ext_iff]

/-- C4 counterexample: in the concrete request over `cStore` and
`cStream`, both suggestions cross the same 3 intervening stops, yet their
transit times are 12 and 18 minutes — no single `per_leg_minutes` scalar
shared across the request explains both, because the source re-draws
`random.uniform(4, 8)` inside `calculate_journey_time` for every
(route, bus) pair. -/
theorem C4_counterexample :
    ¬ ∃ plm : ℚ,
      ∀ e ∈ (planEntries none cStore "t0" "Town Hall" "Hospital Square"
          ⟨cStream, 0⟩).1,
        e.total_journey_time - e.eta_to_start =
          ((get_stops_in_order e.route_id "Town Hall"
            "Hospital Square").length : ℚ) * plm := by
  have hlen : (get_stops_in_order "Route-1" "Town Hall"
      "Hospital Square").length = 3 := rfl
  rw [planEntries_eval]
  rintro ⟨plm, h⟩
  have h1 := h cE1 (List.mem_cons_self _ _)
  have h2 := h cE2 (List.mem_cons_of_mem _ (List.mem_cons_self _ _))
  norm_num [cE1, cE2, hlen] at h1 h2
  linarith

/-- Witness for C4's amended claim at the concrete request: the first
suggestion's transit time is its stop count times a scalar in [4, 8]. -/
theorem C4_amended_per_leg_per_suggestion_witness :
    ∃ plm : ℚ, 4 ≤ plm ∧ plm ≤ 8 ∧
      cE1.total_journey_time - cE1.eta_to_start =
        ((get_stops_in_order cE1.route_id "Town Hall"
          "Hospital Square").length : ℚ) * plm := by
  have hS : ∀ n, 0 ≤ cStream n ∧ cStream n ≤ 1 := by
    intro n
    unfold cStream
    split <;> norm_num
  exact C4_amended_per_leg_per_suggestion none cStore "t0" "Town Hall"
    "Hospital Square" ⟨cStream, 0⟩ hS cE1
    (by rw [planEntries_eval]; exact List.mem_cons_self _ _)
